import Mathlib

/-!
Verification development for the MMDP multimodal RAG application.

Strings from the Python source are modelled as `List Char`; the stateful and
IO-performing parts (file system, external model services, the vector store)
are modelled by passing their observable outcomes explicitly as arguments.
Every definition below is translated from the corresponding function in the
repository source, with the file and function named in its doc comment.
-/

namespace MMDP

/-- Python whitespace test used by `str.strip()`: space, tab, newline,
carriage return, vertical tab, form feed. -/
def isPySpace (c : Char) : Bool :=
  c == ' ' || c == '\t' || c == '\n' || c == '\r' || c == Char.ofNat 11 || c == Char.ofNat 12

/-- Python `s.strip()`: remove leading and trailing whitespace. -/
def pyStrip (s : List Char) : List Char :=
  ((s.dropWhile isPySpace).reverse.dropWhile isPySpace).reverse

/-- Model of `TextProcessor.chunk_text` (src/processors/text_processor.py):
`start = 0; while start < len(text): chunks.append(text[start:start+size]); start += size - overlap`.
The source loop never terminates when `size ≤ overlap` (the step is not
positive); that branch is mapped to `[]` here and every theorem about this
function assumes `overlap < size`, the domain on which the source is defined. -/
def chunk_text (text : List Char) (size overlap : Nat) : List (List Char) :=
  if h1 : text = [] then []
  else if h2 : size ≤ overlap then []
  else text.take size :: chunk_text (text.drop (size - overlap)) size overlap
termination_by text.length
decreasing_by
  have h0 : 0 < text.length := List.length_pos.mpr h1
  simp only [List.length_drop]
  omega

/-- Model of the inline chunk loop shared by `process_text_document`,
`process_audio_file` and `api_process_youtube` (src/app.py):
`for i in range(0, len(text), CHUNK_SIZE - CHUNK_OVERLAP): chunk = text[i:i+CHUNK_SIZE]; if chunk.strip(): chunks.append(chunk)`.
Same windows as `chunk_text`, but windows whose `strip()` is empty are dropped.
As above, the `size ≤ overlap` branch is outside the source's domain. -/
def process_chunks (text : List Char) (size overlap : Nat) : List (List Char) :=
  if h1 : text = [] then []
  else if h2 : size ≤ overlap then []
  else
    if (pyStrip (text.take size)).isEmpty then process_chunks (text.drop (size - overlap)) size overlap
    else text.take size :: process_chunks (text.drop (size - overlap)) size overlap
termination_by text.length
decreasing_by
  all_goals
    have h0 : 0 < text.length := List.length_pos.mpr h1
    simp only [List.length_drop]
    omega

/-- The last `n` characters of a chunk (the whole chunk when it is shorter). -/
def lastChars (n : Nat) (s : List Char) : List Char :=
  s.drop (s.length - n)

/-- Rebuild a text from its chunk list: the first chunk, then every later
chunk with its first `overlap` characters removed. -/
def reconstruct (overlap : Nat) : List (List Char) → List Char
  | [] => []
  | c :: rest => c ++ (rest.map (List.drop overlap)).flatten

theorem chunk_text_nil (size overlap : Nat) : chunk_text [] size overlap = [] := by
  rw [chunk_text]
  simp

theorem chunk_text_cons {text : List Char} {size overlap : Nat}
    (h1 : text ≠ []) (h2 : overlap < size) :
    chunk_text text size overlap =
      text.take size :: chunk_text (text.drop (size - overlap)) size overlap := by
  rw [chunk_text]
  simp [h1, Nat.not_le.mpr h2]

theorem chunk_text_eq_nil_iff {text : List Char} {size overlap : Nat} (h2 : overlap < size) :
    chunk_text text size overlap = [] ↔ text = [] := by
  constructor
  · intro h
    by_contra hne
    rw [chunk_text_cons hne h2] at h
    exact List.cons_ne_nil _ _ h
  · intro h
    subst h
    exact chunk_text_nil size overlap

theorem reconstruct_cons (overlap : Nat) (c : List Char) (rest : List (List Char)) :
    reconstruct overlap (c :: rest) = c ++ (rest.map (List.drop overlap)).flatten := rfl

theorem chunk_text_chunk_length_le (size overlap : Nat) (text : List Char) :
    ∀ c ∈ chunk_text text size overlap, c.length ≤ size := by
  induction text, size, overlap using chunk_text.induct with
  | case1 size overlap =>
    rw [chunk_text_nil]
    simp
  | case2 text size overlap h1 h2 =>
    rw [chunk_text]
    simp [h1, h2]
  | case3 text size overlap h1 h2 ih =>
    rw [chunk_text_cons h1 (Nat.not_le.mp h2)]
    intro c hc
    rcases List.mem_cons.mp hc with hcc | hcc
    · subst hcc
      simp only [List.length_take]
      omega
    · exact ih c hcc

theorem chunk_text_drop_flatten (size overlap : Nat) (text : List Char) :
    overlap < size →
    ((chunk_text text size overlap).map (List.drop overlap)).flatten = text.drop overlap := by
  induction text, size, overlap using chunk_text.induct with
  | case1 size overlap =>
    intro h
    rw [chunk_text_nil]
    simp
  | case2 text size overlap h1 h2 =>
    intro h
    omega
  | case3 text size overlap h1 h2 ih =>
    intro h
    rw [chunk_text_cons h1 (Nat.not_le.mp h2)]
    simp only [List.map_cons, List.flatten_cons]
    rw [ih h]
    rw [List.drop_take, List.drop_drop]
    rw [show size - overlap + overlap = size from by omega]
    have hsplit : List.drop (size - overlap) (List.drop overlap text) = text.drop size := by
      rw [List.drop_drop]
      congr 1
      omega
    rw [← hsplit, List.take_append_drop]

theorem chunk_text_reconstruct (size overlap : Nat) (h : overlap < size) (text : List Char) :
    reconstruct overlap (chunk_text text size overlap) = text := by
  by_cases h1 : text = []
  · subst h1
    rw [chunk_text_nil]
    rfl
  · rw [chunk_text_cons h1 h, reconstruct_cons]
    rw [chunk_text_drop_flatten size overlap _ h]
    rw [List.drop_drop]
    rw [show size - overlap + overlap = size from by omega]
    exact List.take_append_drop size text

theorem chunk_text_overlap (size overlap : Nat) (h : overlap < size) :
    ∀ (i : Nat) (text : List Char),
      i + 1 < (chunk_text text size overlap).length →
      ((chunk_text text size overlap).getD i []).length = size →
      lastChars overlap ((chunk_text text size overlap).getD i []) =
          ((chunk_text text size overlap).getD (i + 1) []).take overlap ∧
        overlap ≤ ((chunk_text text size overlap).getD (i + 1) []).length := by
  intro i
  induction i with
  | zero =>
    intro text hlen hfull
    by_cases h1 : text = []
    · rw [h1, chunk_text_nil] at hlen
      simp at hlen
    · rw [chunk_text_cons h1 h] at hlen hfull ⊢
      have htail : chunk_text (text.drop (size - overlap)) size overlap ≠ [] := by
        intro hnil
        rw [hnil] at hlen
        simp at hlen
      have htail' : text.drop (size - overlap) ≠ [] :=
        fun hd => htail (by rw [hd]; exact chunk_text_nil size overlap)
      rw [chunk_text_cons htail' h]
      simp only [List.getD_cons_zero, List.getD_cons_succ] at hfull ⊢
      have hslen : size ≤ text.length := by
        have := List.length_take size text
        omega
      constructor
      · unfold lastChars
        rw [hfull, List.drop_take, List.take_take]
        have e1 : size - (size - overlap) = overlap := by omega
        have e2 : min overlap size = overlap := by omega
        rw [e1, e2]
      · rw [List.length_take, List.length_drop]
        omega
  | succ k ih =>
    intro text hlen hfull
    by_cases h1 : text = []
    · rw [h1, chunk_text_nil] at hlen
      simp at hlen
    · rw [chunk_text_cons h1 h] at hlen hfull ⊢
      simp only [List.length_cons, List.getD_cons_succ] at hlen hfull ⊢
      exact ih (text.drop (size - overlap)) (by omega) hfull

theorem process_chunks_nil (size overlap : Nat) : process_chunks [] size overlap = [] := by
  rw [process_chunks]
  simp

theorem process_chunks_cons {text : List Char} {size overlap : Nat}
    (h1 : text ≠ []) (h2 : overlap < size) :
    process_chunks text size overlap =
      if (pyStrip (text.take size)).isEmpty then
        process_chunks (text.drop (size - overlap)) size overlap
      else text.take size :: process_chunks (text.drop (size - overlap)) size overlap := by
  rw [process_chunks]
  simp [h1, Nat.not_le.mpr h2]

/-- C1 (amended): for every text and `size > overlap ≥ 0`,
`TextProcessor.chunk_text` produces chunks of length at most `size`;
concatenating the first chunk with each later chunk minus its first `overlap`
characters reconstructs the text exactly; and every pair of consecutive chunks
whose earlier member has full length `size` (which is every pair except those
among the trailing truncated chunks) shares exactly `overlap` characters: the
last `overlap` characters of the earlier chunk equal the first `overlap`
characters of the later one, which has at least `overlap` characters. -/
theorem c1_chunk_text_amended (text : List Char) (size overlap : Nat) (h : overlap < size) :
    (∀ c ∈ chunk_text text size overlap, c.length ≤ size) ∧
    reconstruct overlap (chunk_text text size overlap) = text ∧
    (∀ i : Nat, i + 1 < (chunk_text text size overlap).length →
      ((chunk_text text size overlap).getD i []).length = size →
      lastChars overlap ((chunk_text text size overlap).getD i []) =
          ((chunk_text text size overlap).getD (i + 1) []).take overlap ∧
        overlap ≤ ((chunk_text text size overlap).getD (i + 1) []).length) :=
  ⟨chunk_text_chunk_length_le size overlap text,
   chunk_text_reconstruct size overlap h text,
   fun i => chunk_text_overlap size overlap h i text⟩

/-- C1 witness: the amended statement instantiated at text `"abcdef"`,
size 4, overlap 1. -/
theorem c1_chunk_text_amended_witness :
    (1 : Nat) < 4 ∧
    ((∀ c ∈ chunk_text ['a', 'b', 'c', 'd', 'e', 'f'] 4 1, c.length ≤ 4) ∧
    reconstruct 1 (chunk_text ['a', 'b', 'c', 'd', 'e', 'f'] 4 1) = ['a', 'b', 'c', 'd', 'e', 'f'] ∧
    (∀ i : Nat, i + 1 < (chunk_text ['a', 'b', 'c', 'd', 'e', 'f'] 4 1).length →
      ((chunk_text ['a', 'b', 'c', 'd', 'e', 'f'] 4 1).getD i []).length = 4 →
      lastChars 1 ((chunk_text ['a', 'b', 'c', 'd', 'e', 'f'] 4 1).getD i []) =
          ((chunk_text ['a', 'b', 'c', 'd', 'e', 'f'] 4 1).getD (i + 1) []).take 1 ∧
        1 ≤ ((chunk_text ['a', 'b', 'c', 'd', 'e', 'f'] 4 1).getD (i + 1) []).length)) :=
  ⟨by decide, c1_chunk_text_amended ['a', 'b', 'c', 'd', 'e', 'f'] 4 1 (by decide)⟩

/-- C1 counterexample: with the 15-character text `"abcdefghijklmno"`, size 10
and overlap 8 (so `size > overlap ≥ 0`), the chunker yields 8 chunks; chunks 3
and 4 are consecutive and chunk 4 is not the final chunk, yet the last 8
characters of chunk 3 (`"hijklmno"`) differ from the first 8 characters of
chunk 4 (`"ijklmno"`, only 7 characters long), so consecutive chunks do not
always share exactly `overlap` characters away from the final chunk. -/
theorem c1_chunk_text_counterexample :
    (8 : Nat) < 10 ∧
    (chunk_text ['a', 'b', 'c', 'd', 'e', 'f', 'g', 'h', 'i', 'j', 'k', 'l', 'm', 'n', 'o'] 10 8).length = 8 ∧
    3 + 1 <
      (chunk_text ['a', 'b', 'c', 'd', 'e', 'f', 'g', 'h', 'i', 'j', 'k', 'l', 'm', 'n', 'o'] 10 8).length - 1 ∧
    lastChars 8 ((chunk_text ['a', 'b', 'c', 'd', 'e', 'f', 'g', 'h', 'i', 'j', 'k', 'l', 'm', 'n', 'o'] 10 8).getD 3 []) ≠
      ((chunk_text ['a', 'b', 'c', 'd', 'e', 'f', 'g', 'h', 'i', 'j', 'k', 'l', 'm', 'n', 'o'] 10 8).getD 4 []).take 8 := by
  refine ⟨by decide, ?_, ?_, ?_⟩ <;> simp [chunk_text, lastChars]

/-- C2 (amended): both chunking code paths map the empty string to the empty
chunk sequence; for a nonempty text with `len(text) ≤ size - overlap`,
`TextProcessor.chunk_text` returns exactly one chunk equal to the full
untrimmed text, and the inline loop of `process_text_document` returns that
same single untrimmed chunk when the text contains a non-whitespace character
and no chunk at all when the text is whitespace-only. -/
theorem c2_chunker_amended (text : List Char) (size overlap : Nat)
    (h : overlap < size) (h1 : text ≠ []) (h2 : text.length ≤ size - overlap) :
    chunk_text [] size overlap = [] ∧
    process_chunks [] size overlap = [] ∧
    chunk_text text size overlap = [text] ∧
    process_chunks text size overlap = (if (pyStrip text).isEmpty then [] else [text]) := by
  have htake : text.take size = text := List.take_of_length_le (by omega)
  have hdrop : text.drop (size - overlap) = [] := List.drop_eq_nil_of_le h2
  refine ⟨chunk_text_nil size overlap, process_chunks_nil size overlap, ?_, ?_⟩
  · rw [chunk_text_cons h1 h, htake, hdrop, chunk_text_nil]
  · rw [process_chunks_cons h1 h, htake, hdrop, process_chunks_nil]

/-- C2 witness: the amended statement instantiated at text `"ab"`, size 5,
overlap 2. -/
theorem c2_chunker_amended_witness :
    (2 : Nat) < 5 ∧ (['a', 'b'] : List Char) ≠ [] ∧ (['a', 'b'] : List Char).length ≤ 5 - 2 ∧
    (chunk_text [] 5 2 = [] ∧
    process_chunks [] 5 2 = [] ∧
    chunk_text ['a', 'b'] 5 2 = [['a', 'b']] ∧
    process_chunks ['a', 'b'] 5 2 = (if (pyStrip ['a', 'b']).isEmpty then [] else [['a', 'b']])) :=
  ⟨by decide, by decide, by decide, c2_chunker_amended ['a', 'b'] 5 2 (by decide) (by decide) (by decide)⟩

/-- C2 counterexample: the text `"abcde"` has length 5 ≤ size 5 with overlap 3
(`size > overlap ≥ 0`), yet `chunk_text` returns three chunks, not one; and for
the text `" a"` (length 2 ≤ size 10, overlap 2) the single chunk returned is
the untrimmed `" a"`, which differs from the stripped text `"a"`. -/
theorem c2_chunker_counterexample :
    (3 : Nat) < 5 ∧ (['a', 'b', 'c', 'd', 'e'] : List Char).length ≤ 5 ∧
    (chunk_text ['a', 'b', 'c', 'd', 'e'] 5 3).length = 3 ∧
    (2 : Nat) < 10 ∧ ([' ', 'a'] : List Char).length ≤ 10 ∧
    chunk_text [' ', 'a'] 10 2 = [[' ', 'a']] ∧
    pyStrip [' ', 'a'] = ['a'] ∧
    ([' ', 'a'] : List Char) ≠ ['a'] := by
  refine ⟨by decide, by decide, ?_, by decide, by decide, ?_, by decide, by decide⟩ <;>
    simp [chunk_text, pyStrip]

/-- Python truthiness-and-strip filter used in `api_chat` (src/app.py):
`[doc for doc in results['documents'][0] if doc and doc.strip()]`. -/
def nonBlank (d : List Char) : Bool :=
  !d.isEmpty && !(pyStrip d).isEmpty

/-- Observable outcome of the retrieval part of `api_chat`: the context
documents that survive filtering, and whether the widened second query
(`n_results=20`) was issued. -/
structure ChatRetrieval where
  contextDocs : List (List Char)
  secondQueryIssued : Bool
deriving DecidableEq, Repr

/-- Model of the retrieval logic of `api_chat` (src/app.py). `q15` is the raw
document list the store returns for `db.query(message, n_results=15)`, `q20`
the list it would return for `n_results=20`, and `count` is
`db.count_documents()`. The source keeps the first filtered list when the
second query returns no raw documents, and never reaches the fallback when the
first query returns no raw documents. -/
def api_chat_retrieve (q15 q20 : List (List Char)) (count : Nat) : ChatRetrieval :=
  if q15.isEmpty then ⟨[], false⟩
  else
    if (q15.filter nonBlank).length < 5 ∧ 10 < count then
      ⟨if q20.isEmpty then q15.filter nonBlank else q20.filter nonBlank, true⟩
    else ⟨q15.filter nonBlank, false⟩

/-- C3: in `api_chat`, when the store holds more than 10 documents and the
first query at K=15 returns raw results of which fewer than 5 are non-blank,
exactly one second query at K=20 is issued and its (filtered) result set is
used instead; and when the store holds at most 10 documents no second query is
ever issued. -/
theorem c3_chat_retrieval_fallback (q15 q20 : List (List Char)) (count : Nat) :
    (¬q15.isEmpty → (q15.filter nonBlank).length < 5 → 10 < count →
      (api_chat_retrieve q15 q20 count).secondQueryIssued = true ∧
      (¬q20.isEmpty →
        (api_chat_retrieve q15 q20 count).contextDocs = q20.filter nonBlank)) ∧
    (count ≤ 10 → (api_chat_retrieve q15 q20 count).secondQueryIssued = false) := by
  constructor
  · intro h1 h2 h3
    rw [api_chat_retrieve]
    rw [if_neg h1, if_pos ⟨h2, h3⟩]
    constructor
    · rfl
    · intro h4
      simp [h4]
  · intro hc
    rw [api_chat_retrieve]
    by_cases h1 : q15.isEmpty = true
    · rw [if_pos h1]
    · rw [if_neg h1, if_neg (fun hcon => absurd hcon.2 (Nat.not_lt.mpr hc))]

/-- C3 witness: the fallback fires at a store count of 11 for a first query
returning one non-blank document, and stays off at a store count of 10. -/
theorem c3_chat_retrieval_fallback_witness :
    (¬([['a']] : List (List Char)).isEmpty →
      (([['a']] : List (List Char)).filter nonBlank).length < 5 → 10 < 11 →
      (api_chat_retrieve [['a']] [['b'], ['c']] 11).secondQueryIssued = true ∧
      (¬([['b'], ['c']] : List (List Char)).isEmpty →
        (api_chat_retrieve [['a']] [['b'], ['c']] 11).contextDocs =
          ([['b'], ['c']] : List (List Char)).filter nonBlank)) ∧
    ((11 : Nat) ≤ 10 →
      (api_chat_retrieve [['a']] [['b'], ['c']] 11).secondQueryIssued = false) :=
  c3_chat_retrieval_fallback [['a']] [['b'], ['c']] 11

/-- Sentinel returned by `MediaProcessor.transcribe_audio` when the secondary
speech-recognition library is not installed. -/
def srNotAvailableMsg : List Char :=
  "[Speech recognition not available. Install with: pip install SpeechRecognition]".data

/-- Sentinel returned by the secondary chunked path when every segment failed. -/
def noSpeechMsg : List Char :=
  "[No speech detected in audio - may be music, sound effects, or non-English content]".data

/-- Sentinel returned when the single-file secondary transcription raises
`sr.UnknownValueError`. -/
def couldNotUnderstandMsg : List Char :=
  "[Could not understand audio - speech may be unclear or in unsupported language]".data

/-- Sentinel returned when the single-file secondary transcription raises
`sr.RequestError(e)`. -/
def srServiceErrorMsg (e : List Char) : List Char :=
  "[Speech recognition service error: ".data ++ e ++ ". Check internet connection]".data

/-- Sentinel returned when any other exception reaches the outer handler of
`transcribe_audio`. -/
def transcriptionFailedMsg (e : List Char) : List Char :=
  "[Transcription failed: ".data ++ e ++ "]".data

/-- Outcome of the single-file secondary (Google Speech) transcription: a
transcript, or one of the three distinct exception kinds the outer handlers
of `transcribe_audio` convert to distinct sentinel strings. -/
inductive WholeFileOutcome where
  | ok (t : List Char)
  | unknownValue
  | requestError (e : List Char)
  | otherError (e : List Char)
deriving Repr

/-- Observable environment of one `MediaProcessor.transcribe_audio` run
(src/processors/media_processor.py). External effects are given as data: the
size of the normalized WAV file, whether a usable primary (Whisper) credential
is configured, and the per-segment transcription outcomes each service would
produce, in time order (`none` is a segment whose transcription raises). -/
structure TranscribeEnv where
  primaryKeyPresent : Bool
  primaryKeyIsOpenRouter : Bool
  wavSizeBytes : Nat
  primarySegs : List (Option (List Char))
  primaryWhole : Option (List Char)
  srAvailable : Bool
  secondarySegs : List (Option (List Char))
  secondaryWhole : WholeFileOutcome

/-- Result of a `transcribe_audio` run: the `chunk_duration_seconds` values
passed to `split_audio_into_chunks`, in call order, and the returned string. -/
structure TranscribeRun where
  splitDurations : List Nat
  result : List Char

/-- The segment loop shared by both transcription paths: collect the
successful transcripts in segment order, join them with a single space, and
fail (`none`) only when every segment failed. -/
def joinSegments (segs : List (Option (List Char))) : Option (List Char) :=
  if (segs.filterMap id).isEmpty then none
  else some (List.intercalate [' '] (segs.filterMap id))

/-- Model of the Google Speech fallback path of `transcribe_audio`: if the
library is missing return the sentinel; if the WAV exceeds 10MB split into
30-second segments and run the segment loop (all segments failing yields the
no-speech sentinel); otherwise transcribe the whole file, each exception kind
becoming its own sentinel string via the outer handlers. -/
def googleSpeechPath (env : TranscribeEnv) (calls : List Nat) : TranscribeRun :=
  if !env.srAvailable then ⟨calls, srNotAvailableMsg⟩
  else if 10 * 1048576 < env.wavSizeBytes then
    match joinSegments env.secondarySegs with
    | some t => ⟨calls ++ [30], t⟩
    | none => ⟨calls ++ [30], noSpeechMsg⟩
  else
    match env.secondaryWhole with
    | .ok t => ⟨calls, t⟩
    | .unknownValue => ⟨calls, couldNotUnderstandMsg⟩
    | .requestError e => ⟨calls, srServiceErrorMsg e⟩
    | .otherError e => ⟨calls, transcriptionFailedMsg e⟩

/-- Model of `MediaProcessor.transcribe_audio`: the primary Whisper path runs
when a key is configured and it is not an OpenRouter key; above 20MB it splits
into 60-second segments and runs the segment loop, falling back to the Google
path when all segments fail (the raised exception is caught by the Whisper
try block); any other primary failure also falls through to the Google path. -/
def transcribe_audio_model (env : TranscribeEnv) : TranscribeRun :=
  if env.primaryKeyPresent && !env.primaryKeyIsOpenRouter then
    if 20 * 1048576 < env.wavSizeBytes then
      match joinSegments env.primarySegs with
      | some t => ⟨[60], t⟩
      | none => googleSpeechPath env [60]
    else
      match env.primaryWhole with
      | some t => ⟨[], t⟩
      | none => googleSpeechPath env []
  else googleSpeechPath env []

theorem googleSpeechPath_split (env : TranscribeEnv) (calls : List Nat)
    (h4 : env.srAvailable = true) (hsz : 10 * 1048576 < env.wavSizeBytes) :
    (googleSpeechPath env calls).splitDurations = calls ++ [30] := by
  rw [googleSpeechPath]
  rw [h4]
  simp only [Bool.not_true, Bool.false_eq_true, if_false, if_pos hsz]
  cases hj : joinSegments env.secondarySegs <;> simp [hj]

theorem joinSegments_eq_none_iff (segs : List (Option (List Char))) :
    joinSegments segs = none ↔ ∀ s ∈ segs, s = none := by
  rw [joinSegments]
  by_cases he : (segs.filterMap id).isEmpty = true
  · have hall : ∀ s ∈ segs, s = none := by
      rw [List.isEmpty_iff, List.filterMap_eq_nil_iff] at he
      simpa using he
    simp only [he, if_true]
    simpa using hall
  · have hex : ¬∀ s ∈ segs, s = none := by
      rw [List.isEmpty_iff, List.filterMap_eq_nil_iff] at he
      simpa using he
    simp [he, hex]

theorem joinSegments_eq_some (segs : List (Option (List Char))) (t : List Char)
    (hjt : joinSegments segs = some t) :
    t = List.intercalate [' '] (segs.filterMap id) := by
  rw [joinSegments] at hjt
  by_cases he : (segs.filterMap id).isEmpty
  · rw [if_pos he] at hjt
    exact absurd hjt (Option.noConfusion)
  · rw [if_neg he] at hjt
    exact (Option.some.injEq _ _ ▸ hjt).symm

/-- C4: `transcribe_audio` splits into 60-second segments on the primary
(Whisper) path whenever a usable non-OpenRouter key is configured and the
normalized WAV exceeds 20MB, returning the successful segment transcripts
joined with a single space in segment order when any segment succeeds; on
every route that reaches the secondary (Google Speech) path with the file
above 10MB and the library available — no key or an OpenRouter key, a usable
key with a ≤20MB file whose whole-file Whisper call fails, or a usable key
with a >20MB file all of whose Whisper segments fail — it splits into
30-second segments; and the segment loop shared by both paths transcribes
segments independently in time order, joins successes with one space, lets a
failed segment contribute nothing without aborting the rest, and fails only
when every segment fails. -/
theorem c4_transcribe_audio (env : TranscribeEnv) :
    (env.primaryKeyPresent = true → env.primaryKeyIsOpenRouter = false →
      20 * 1048576 < env.wavSizeBytes →
      (transcribe_audio_model env).splitDurations.getD 0 0 = 60 ∧
      (∀ t, joinSegments env.primarySegs = some t →
        (transcribe_audio_model env).result = t ∧
        t = List.intercalate [' '] (env.primarySegs.filterMap id))) ∧
    (env.srAvailable = true → 10 * 1048576 < env.wavSizeBytes →
      ((env.primaryKeyPresent = false ∨ env.primaryKeyIsOpenRouter = true) →
        (transcribe_audio_model env).splitDurations = [30]) ∧
      (env.primaryKeyPresent = true → env.primaryKeyIsOpenRouter = false →
        env.wavSizeBytes ≤ 20 * 1048576 → env.primaryWhole = none →
        (transcribe_audio_model env).splitDurations = [30]) ∧
      (env.primaryKeyPresent = true → env.primaryKeyIsOpenRouter = false →
        20 * 1048576 < env.wavSizeBytes → joinSegments env.primarySegs = none →
        (transcribe_audio_model env).splitDurations = [60, 30])) ∧
    (∀ segs : List (Option (List Char)),
      (joinSegments segs = none ↔ ∀ s ∈ segs, s = none)) ∧
    (∀ (segs : List (Option (List Char))) (t : List Char),
      joinSegments segs = some t → t = List.intercalate [' '] (segs.filterMap id)) ∧
    (∀ xs ys : List (Option (List Char)),
      joinSegments (xs ++ none :: ys) = joinSegments (xs ++ ys)) := by
  refine ⟨?_, ?_, joinSegments_eq_none_iff, joinSegments_eq_some, ?_⟩
  · intro h1 h2 h3
    have hcond : (env.primaryKeyPresent && !env.primaryKeyIsOpenRouter) = true := by
      rw [h1, h2]
      rfl
    constructor
    · rw [transcribe_audio_model, if_pos hcond, if_pos h3]
      cases hj : joinSegments env.primarySegs with
      | none =>
        by_cases h4 : env.srAvailable = true
        · rw [googleSpeechPath_split env [60] h4 (by omega)]
          rfl
        · have h4' : env.srAvailable = false := by
            revert h4
            cases env.srAvailable <;> simp
          rw [googleSpeechPath, h4']
          rfl
      | some t => rfl
    · intro t hjt
      rw [transcribe_audio_model, if_pos hcond, if_pos h3, hjt]
      exact ⟨rfl, joinSegments_eq_some env.primarySegs t hjt⟩
  · intro h4 hsz
    refine ⟨?_, ?_, ?_⟩
    · intro hkey
      have hcond : (env.primaryKeyPresent && !env.primaryKeyIsOpenRouter) = false := by
        rcases hkey with h | h <;> rw [h] <;> simp
      rw [transcribe_audio_model, hcond]
      simp only [Bool.false_eq_true, if_false]
      rw [googleSpeechPath_split env [] h4 hsz]
      rfl
    · intro h1 h2 hle hwh
      have hcond : (env.primaryKeyPresent && !env.primaryKeyIsOpenRouter) = true := by
        rw [h1, h2]
        rfl
      rw [transcribe_audio_model, if_pos hcond, if_neg (by omega), hwh]
      rw [googleSpeechPath_split env [] h4 hsz]
      rfl
    · intro h1 h2 h3 hj
      have hcond : (env.primaryKeyPresent && !env.primaryKeyIsOpenRouter) = true := by
        rw [h1, h2]
        rfl
      rw [transcribe_audio_model, if_pos hcond, if_pos h3, hj]
      rw [googleSpeechPath_split env [60] h4 hsz]
      rfl
  · intro xs ys
    rw [joinSegments, joinSegments, List.filterMap_append, List.filterMap_append]
    simp

/-- Concrete transcription environment: usable Whisper key, a 21MB normalized
WAV, three 60-second segments of which the middle one fails. -/
def sampleTranscribeEnv : TranscribeEnv :=
  ⟨true, false, 22020096, [some ['h', 'i'], none, some ['y', 'o']], none, true, [],
    WholeFileOutcome.unknownValue⟩

/-- C4 witness: the transcription theorem instantiated at a concrete 21MB
environment with a failing middle segment. -/
theorem c4_transcribe_audio_witness :
    (sampleTranscribeEnv.primaryKeyPresent = true →
      sampleTranscribeEnv.primaryKeyIsOpenRouter = false →
      20 * 1048576 < sampleTranscribeEnv.wavSizeBytes →
      (transcribe_audio_model sampleTranscribeEnv).splitDurations.getD 0 0 = 60 ∧
      (∀ t, joinSegments sampleTranscribeEnv.primarySegs = some t →
        (transcribe_audio_model sampleTranscribeEnv).result = t ∧
        t = List.intercalate [' '] (sampleTranscribeEnv.primarySegs.filterMap id))) ∧
    (sampleTranscribeEnv.srAvailable = true →
      10 * 1048576 < sampleTranscribeEnv.wavSizeBytes →
      ((sampleTranscribeEnv.primaryKeyPresent = false ∨
          sampleTranscribeEnv.primaryKeyIsOpenRouter = true) →
        (transcribe_audio_model sampleTranscribeEnv).splitDurations = [30]) ∧
      (sampleTranscribeEnv.primaryKeyPresent = true →
        sampleTranscribeEnv.primaryKeyIsOpenRouter = false →
        sampleTranscribeEnv.wavSizeBytes ≤ 20 * 1048576 →
        sampleTranscribeEnv.primaryWhole = none →
        (transcribe_audio_model sampleTranscribeEnv).splitDurations = [30]) ∧
      (sampleTranscribeEnv.primaryKeyPresent = true →
        sampleTranscribeEnv.primaryKeyIsOpenRouter = false →
        20 * 1048576 < sampleTranscribeEnv.wavSizeBytes →
        joinSegments sampleTranscribeEnv.primarySegs = none →
        (transcribe_audio_model sampleTranscribeEnv).splitDurations = [60, 30])) ∧
    (∀ segs : List (Option (List Char)),
      (joinSegments segs = none ↔ ∀ s ∈ segs, s = none)) ∧
    (∀ (segs : List (Option (List Char))) (t : List Char),
      joinSegments segs = some t → t = List.intercalate [' '] (segs.filterMap id)) ∧
    (∀ xs ys : List (Option (List Char)),
      joinSegments (xs ++ none :: ys) = joinSegments (xs ++ ys)) :=
  c4_transcribe_audio sampleTranscribeEnv

/-- Python substring membership test `needle in hay`. -/
def strContains (hay needle : List Char) : Bool :=
  (List.range (hay.length + 1)).any fun i => needle.isPrefixOf (hay.drop i)

/-- The ordered vision-model list built by `OpenAIHandler.analyze_video_frames`
(src/llm/openai_handler.py): three OpenRouter models when the configured model
name looks like an OpenRouter one, otherwise OpenAI's own vision model. -/
def visionModels (modelName : List Char) : List (List Char) :=
  if strContains modelName "openai/".data || "sk-or".data.isPrefixOf modelName then
    ["google/gemini-2.0-flash-exp:free".data, "openai/gpt-4o-mini".data,
      "anthropic/claude-3.5-sonnet".data]
  else ["gpt-4o".data]

/-- Distinguishable outcomes of `analyze_video_frames`: no frame could be
encoded, some model call succeeded with text `t`, or every model failed. -/
inductive VideoAnalysis where
  | noFrames
  | ok (t : List Char)
  | allFailed
deriving DecidableEq, Repr

/-- Sentinel returned when no video frame could be loaded. -/
def noFramesMsg : List Char :=
  "Error: No frames could be loaded for analysis".data

/-- Sentinel returned after every vision model in the list has failed. -/
def allModelsFailedMsg : List Char :=
  "Error: All vision models failed to analyze the video. The service may be rate-limited. Please try again later or with fewer/shorter videos.".data

/-- The model loop of `analyze_video_frames`: try each model in order, return
on the first success, count how many models were attempted. `none` is a call
that raises (including a response whose content is `None`, since `len(result)`
then raises inside the same try block). -/
def tryVisionModels : List (Option (List Char)) → VideoAnalysis × Nat
  | [] => (.allFailed, 0)
  | some t :: _ => (.ok t, 1)
  | none :: rest =>
    ((tryVisionModels rest).1, (tryVisionModels rest).2 + 1)

/-- Model of `OpenAIHandler.analyze_video_frames`: `loadedFrames` is the
number of frames successfully encoded by the initial loop, `outcomes` the
per-model call outcomes in the order of the configured model list. -/
def analyze_video_frames_model (loadedFrames : Nat)
    (outcomes : List (Option (List Char))) : VideoAnalysis × Nat :=
  if loadedFrames = 0 then (.noFrames, 0) else tryVisionModels outcomes

/-- The string the caller receives for each analysis outcome. -/
def videoResponseText : VideoAnalysis → List Char
  | .noFrames => noFramesMsg
  | .ok t => t
  | .allFailed => allModelsFailedMsg

theorem tryVisionModels_first_success :
    ∀ (outcomes : List (Option (List Char))) (i : Nat) (t : List Char),
      i < outcomes.length → (∀ j, j < i → outcomes.getD j none = none) →
      outcomes.getD i none = some t →
      tryVisionModels outcomes = (.ok t, i + 1) := by
  intro outcomes
  induction outcomes with
  | nil =>
    intro i t hi _ _
    simp at hi
  | cons o rest ih =>
    intro i t hi hj hit
    cases i with
    | zero =>
      simp only [List.getD_cons_zero] at hit
      subst hit
      rfl
    | succ k =>
      have h0 : o = none := by
        have := hj 0 (Nat.succ_pos k)
        simpa using this
      subst h0
      simp only [List.getD_cons_succ] at hit
      have hrest := ih k t (by simpa using hi) (fun j hjk => by simpa using hj (j + 1) (by omega)) hit
      show ((tryVisionModels rest).1, (tryVisionModels rest).2 + 1) = _
      rw [hrest]

theorem tryVisionModels_allFailed_iff (outcomes : List (Option (List Char))) :
    (tryVisionModels outcomes).1 = .allFailed ↔ ∀ o ∈ outcomes, o = none := by
  induction outcomes with
  | nil => simp [tryVisionModels]
  | cons o rest ih =>
    cases o with
    | some t => simp [tryVisionModels]
    | none =>
      show (tryVisionModels rest).1 = _ ↔ _
      rw [ih]
      simp

theorem tryVisionModels_allFailed_length (outcomes : List (Option (List Char))) :
    (tryVisionModels outcomes).1 = .allFailed →
    (tryVisionModels outcomes).2 = outcomes.length := by
  induction outcomes with
  | nil => intro _; rfl
  | cons o rest ih =>
    cases o with
    | some t => intro h; exact absurd h (by simp [tryVisionModels])
    | none =>
      intro h
      show (tryVisionModels rest).2 + 1 = rest.length + 1
      rw [ih h]

/-- C5: with at least one loadable frame, `analyze_video_frames` tries the
configured vision models strictly in list order — when the first `i` models
fail and model `i` succeeds with text `t`, the run returns `t` after
attempting exactly `i + 1` models, leaving later models untried; the
all-models-failed sentinel is produced exactly when every model in the list
failed, after attempting all of them; and the configured list is the ordered
OpenRouter triple or the single OpenAI model. -/
theorem c5_analyze_video_frames (loadedFrames : Nat)
    (outcomes : List (Option (List Char))) (hf : loadedFrames ≠ 0) :
    (∀ i t, i < outcomes.length → (∀ j, j < i → outcomes.getD j none = none) →
      outcomes.getD i none = some t →
      analyze_video_frames_model loadedFrames outcomes = (.ok t, i + 1) ∧
      videoResponseText (analyze_video_frames_model loadedFrames outcomes).1 = t) ∧
    ((analyze_video_frames_model loadedFrames outcomes).1 = .allFailed ↔
      ∀ o ∈ outcomes, o = none) ∧
    ((analyze_video_frames_model loadedFrames outcomes).1 = .allFailed →
      (analyze_video_frames_model loadedFrames outcomes).2 = outcomes.length ∧
      videoResponseText (analyze_video_frames_model loadedFrames outcomes).1 =
        allModelsFailedMsg) ∧
    visionModels "openai/gpt-4o-mini".data =
      ["google/gemini-2.0-flash-exp:free".data, "openai/gpt-4o-mini".data,
        "anthropic/claude-3.5-sonnet".data] ∧
    visionModels "gpt-4o".data = ["gpt-4o".data] := by
  have hmodel : analyze_video_frames_model loadedFrames outcomes = tryVisionModels outcomes := by
    rw [analyze_video_frames_model, if_neg hf]
  refine ⟨?_, ?_, ?_, by decide, by decide⟩
  · intro i t hi hj hit
    rw [hmodel, tryVisionModels_first_success outcomes i t hi hj hit]
    exact ⟨rfl, rfl⟩
  · rw [hmodel]
    exact tryVisionModels_allFailed_iff outcomes
  · rw [hmodel]
    intro h
    exact ⟨tryVisionModels_allFailed_length outcomes h, by rw [h]; rfl⟩

/-- C5 witness: the video-frame theorem instantiated at one loaded frame and
the outcome list where the first model fails and the second succeeds. -/
theorem c5_analyze_video_frames_witness :
    (∀ i t, i < ([none, some ['o', 'k'], none] : List (Option (List Char))).length →
      (∀ j, j < i → ([none, some ['o', 'k'], none] : List (Option (List Char))).getD j none = none) →
      ([none, some ['o', 'k'], none] : List (Option (List Char))).getD i none = some t →
      analyze_video_frames_model 1 [none, some ['o', 'k'], none] = (.ok t, i + 1) ∧
      videoResponseText (analyze_video_frames_model 1 [none, some ['o', 'k'], none]).1 = t) ∧
    ((analyze_video_frames_model 1 [none, some ['o', 'k'], none]).1 = .allFailed ↔
      ∀ o ∈ ([none, some ['o', 'k'], none] : List (Option (List Char))), o = none) ∧
    ((analyze_video_frames_model 1 [none, some ['o', 'k'], none]).1 = .allFailed →
      (analyze_video_frames_model 1 [none, some ['o', 'k'], none]).2 =
        ([none, some ['o', 'k'], none] : List (Option (List Char))).length ∧
      videoResponseText (analyze_video_frames_model 1 [none, some ['o', 'k'], none]).1 =
        allModelsFailedMsg) ∧
    visionModels "openai/gpt-4o-mini".data =
      ["google/gemini-2.0-flash-exp:free".data, "openai/gpt-4o-mini".data,
        "anthropic/claude-3.5-sonnet".data] ∧
    visionModels "gpt-4o".data = ["gpt-4o".data] :=
  c5_analyze_video_frames 1 [none, some ['o', 'k'], none] (by decide)

/-- Head of the error string returned by `OpenAIHandler.analyze_image`
(src/llm/openai_handler.py) when any step inside its try block fails. -/
def imageErrorHead : List Char := "Error analyzing image: ".data

/-- Model of `OpenAIHandler.analyze_image`: `encode` is the outcome of opening
and base64-encoding the image file, `call` the outcome of the single vision
request (with `none`-content responses folded into the error case, since
`len(result)` then raises inside the try block). Returns the result string and
the number of vision-model calls made. Every failure is caught and turned
into an error string; nothing propagates. -/
def analyze_image_model :
    Except (List Char) Unit → Except (List Char) (List Char) → List Char × Nat
  | .error e, _ => (imageErrorHead ++ e, 0)
  | .ok _, .error e => (imageErrorHead ++ e, 1)
  | .ok _, .ok t => (t, 1)

/-- Metadata attached to one stored chunk, as built by the ingestion paths in
src/app.py: `{"source": ..., "type": ..., "chunk": i}` with the index absent
on the single-chunk media paths. -/
structure ChunkMeta where
  source : List Char
  ctype : List Char
  chunkIdx : Option Nat
deriving DecidableEq, Repr

/-- Observable result of one per-file ingestion call: what was written to the
vector store and the `(result, error)` pair returned to the batch loop. -/
structure IngestOutcome where
  storedDocs : List (List Char)
  storedMetas : List ChunkMeta
  successPayload : Option (List Char)
  errMsg : Option (List Char)
deriving DecidableEq, Repr

/-- Model of `process_image_file` (src/app.py): a raising
`ImageProcessor.process_image` is reported as the error; otherwise the
description returned by `analyze_image` is stored whenever it is truthy
(non-empty) and the call is reported successful. -/
def process_image_file_model (fileName : List Char) (imageInfo : Except (List Char) Unit)
    (encode : Except (List Char) Unit) (call : Except (List Char) (List Char)) :
    IngestOutcome :=
  match imageInfo with
  | .error e => ⟨[], [], none, some e⟩
  | .ok _ =>
    if ((analyze_image_model encode call).1).isEmpty then
      ⟨[], [], none, some "Failed to analyze".data⟩
    else
      ⟨[(analyze_image_model encode call).1], [⟨fileName, "image".data, none⟩],
        some (analyze_image_model encode call).1, none⟩

/-- C6 counterexample: when the single vision call raises with message
`"boom"`, `analyze_image` does not propagate the failure — it returns the
string `"Error analyzing image: boom"` — and `process_image_file` then stores
that text in the vector store and reports no error, so the ingestion is
recorded as a success rather than a failure. -/
theorem c6_image_counterexample :
    (analyze_image_model (.ok ()) (.error "boom".data)).1 =
      imageErrorHead ++ "boom".data ∧
    (process_image_file_model "a.png".data (.ok ()) (.ok ())
        (.error "boom".data)).storedDocs ≠ [] ∧
    (process_image_file_model "a.png".data (.ok ()) (.ok ())
        (.error "boom".data)).errMsg = none := by
  refine ⟨rfl, ?_, rfl⟩
  decide

/-- C6 (amended): image description is a single attempt with no fallback —
whenever the image file is read successfully exactly one vision-model call is
made — but a failing call does not propagate to the caller: `analyze_image`
catches it and returns the string `"Error analyzing image: <e>"`, which
`process_image_file` treats as a valid description, writes to the vector
store, and reports as a success with no error. -/
theorem c6_image_single_attempt (fileName e : List Char)
    (c : Except (List Char) (List Char)) :
    (analyze_image_model (.ok ()) c).2 = 1 ∧
    (analyze_image_model (.ok ()) (.error e)).1 = imageErrorHead ++ e ∧
    process_image_file_model fileName (.ok ()) (.ok ()) (.error e) =
      ⟨[imageErrorHead ++ e], [⟨fileName, "image".data, none⟩],
        some (imageErrorHead ++ e), none⟩ := by
  refine ⟨?_, rfl, rfl⟩
  cases c <;> rfl

/-- C9: `analyze_image` is total over failure outcomes — a failure while
reading the image file (zero calls made) or in the single vision call is
returned as the non-empty string `"Error analyzing image: <e>"` rather than
raised; that string being truthy, `process_image_file` writes it to the
vector store as the image description and reports the item as a success
(no error in the returned pair). -/
theorem c9_analyze_image_total (fileName e : List Char)
    (c : Except (List Char) (List Char)) :
    analyze_image_model (.error e) c = (imageErrorHead ++ e, 0) ∧
    (analyze_image_model (.ok ()) (.error e)).1 = imageErrorHead ++ e ∧
    imageErrorHead ++ e ≠ [] ∧
    imageErrorHead.isPrefixOf (imageErrorHead ++ e) = true ∧
    process_image_file_model fileName (.ok ()) (.error e) c =
      ⟨[imageErrorHead ++ e], [⟨fileName, "image".data, none⟩],
        some (imageErrorHead ++ e), none⟩ ∧
    process_image_file_model fileName (.ok ()) (.ok ()) (.error e) =
      ⟨[imageErrorHead ++ e], [⟨fileName, "image".data, none⟩],
        some (imageErrorHead ++ e), none⟩ := by
  refine ⟨rfl, rfl, List.cons_ne_nil _ _, ?_, rfl, rfl⟩
  rw [List.isPrefixOf_iff_prefix]
  exact List.prefix_append _ _

/-- File-type category used by the dispatch in `api_process_files`
(src/app.py), keyed on the lowercased filename extension. -/
inductive ExtKind where
  | text
  | image
  | video
  | audio
  | unsupported
deriving DecidableEq, Repr

/-- The extension dispatch of `api_process_files`. -/
def extKind (ext : List Char) : ExtKind :=
  if ext = ".pdf".data ∨ ext = ".docx".data ∨ ext = ".pptx".data ∨
      ext = ".txt".data ∨ ext = ".md".data then .text
  else if ext = ".png".data ∨ ext = ".jpg".data ∨ ext = ".jpeg".data then .image
  else if ext = ".mp4".data then .video
  else if ext = ".mp3".data then .audio
  else .unsupported

/-- One uploaded file as the batch loop observes it: its name, its lowercased
extension, the outcome of `FileHandler.save_uploaded_file` (which returns a
path or raises — its source has no falsy return), and the `(result, error)`
outcome of the per-type processor (which never raises: each catches all its
exceptions internally), with the success message abstracted as its payload. -/
structure UploadItem where
  filename : List Char
  ext : List Char
  saveOutcome : Except (List Char) (List Char)
  procOutcome : Except (List Char) (List Char)
deriving Repr

/-- One entry of the per-file report list (`add_processed_file`). -/
structure FileReport where
  name : List Char
  ok : Bool
  message : List Char
deriving DecidableEq, Repr

/-- One iteration of the batch loop of `api_process_files`: an empty filename
is skipped without a report; a raising save propagates (`Except.error`);
otherwise the file is dispatched by extension and its processor outcome is
converted into a report, counting 1 on success. -/
def processOneItem (it : UploadItem) : Except (List Char) (Option FileReport × Nat) :=
  if it.filename.isEmpty then .ok (none, 0)
  else
    match it.saveOutcome with
    | .error e => .error e
    | .ok path =>
      if path.isEmpty then .ok (some ⟨it.filename, false, "Failed to save file".data⟩, 0)
      else
        match extKind it.ext with
        | .unsupported => .ok (some ⟨it.filename, false, "Unsupported format: ".data ++ it.ext⟩, 0)
        | _ =>
          match it.procOutcome with
          | .error e => .ok (some ⟨it.filename, false, "Error: ".data ++ e⟩, 0)
          | .ok msg => .ok (some ⟨it.filename, true, msg⟩, 1)

/-- The batch loop: reports and success count accumulate until an item
propagates an exception, which carries the reports made so far. -/
def runBatch : List UploadItem → Except (List FileReport × List Char) (List FileReport × Nat)
  | [] => .ok ([], 0)
  | it :: rest =>
    match processOneItem it with
    | .error e => .error ([], e)
    | .ok (rep, inc) =>
      match runBatch rest with
      | .error (reps, e) => .error (rep.toList ++ reps, e)
      | .ok (reps, n) => .ok (rep.toList ++ reps, inc + n)

/-- Overall response of `api_process_files`: the no-files rejection, the
normal counts response, or the whole-batch error response produced by the
endpoint's outer `except` when an exception escapes the loop. -/
inductive BatchOutcome where
  | noFiles
  | done (reports : List FileReport) (successCount : Nat) (totalCount : Nat)
  | aborted (reports : List FileReport) (err : List Char)
deriving DecidableEq, Repr

/-- Model of `api_process_files` (src/app.py). -/
def api_process_files_model (items : List UploadItem) : BatchOutcome :=
  if items.isEmpty then .noFiles
  else
    match runBatch items with
    | .ok (reps, n) => .done reps n items.length
    | .error (reps, e) => .aborted reps e

/-- The path a non-raising save produced for an item. -/
def savedPath (it : UploadItem) : List Char :=
  match it.saveOutcome with
  | .ok p => p
  | .error _ => []

/-- The report one item contributes when its save step does not raise; a pure
function of the item alone. -/
def reportOf (it : UploadItem) : Option FileReport × Nat :=
  if it.filename.isEmpty then (none, 0)
  else if (savedPath it).isEmpty then (some ⟨it.filename, false, "Failed to save file".data⟩, 0)
  else
    match extKind it.ext with
    | .unsupported => (some ⟨it.filename, false, "Unsupported format: ".data ++ it.ext⟩, 0)
    | _ =>
      match it.procOutcome with
      | .error e => (some ⟨it.filename, false, "Error: ".data ++ e⟩, 0)
      | .ok msg => (some ⟨it.filename, true, msg⟩, 1)

theorem processOneItem_of_saved (it : UploadItem) (p : List Char)
    (hp : it.saveOutcome = Except.ok p) :
    processOneItem it = .ok (reportOf it) := by
  by_cases hf : it.filename.isEmpty = true
  · simp [processOneItem, reportOf, hf]
  · simp only [processOneItem, reportOf, savedPath, hp, hf, if_false, Bool.false_eq_true]
    by_cases hpe : p.isEmpty = true
    · simp [hpe]
    · simp only [hpe, if_false, Bool.false_eq_true]
      cases hk : extKind it.ext <;>
        first
          | rfl
          | (cases hpo : it.procOutcome <;> rfl)

theorem runBatch_of_all_saved (items : List UploadItem)
    (h : ∀ it ∈ items, ∃ p, it.saveOutcome = Except.ok p) :
    runBatch items = .ok (items.filterMap (fun it => (reportOf it).1),
      (items.map (fun it => (reportOf it).2)).sum) := by
  induction items with
  | nil => rfl
  | cons it rest ih =>
    obtain ⟨p, hp⟩ := h it (List.mem_cons_self it rest)
    simp only [runBatch]
    rw [processOneItem_of_saved it p hp,
      ih (fun x hx => h x (List.mem_cons_of_mem _ hx))]
    simp only [List.filterMap_cons, List.map_cons, List.sum_cons]
    cases hrep : (reportOf it).1 <;> simp [hrep]

/-- C7 (amended): every failure inside a per-type processor is caught and
converted into a per-file error report carrying the message `"Error: <e>"`,
and as long as the save step of every file in the batch returns a path (does
not raise), each file's report is a function of that file alone, so a failing
file never prevents the remaining files from being processed, and the batch
reports each non-empty-named file plus the overall success and total counts.
A raising `save_uploaded_file`, however, escapes the per-file handling and
aborts the batch (its falsy-return guard in the loop is unreachable). -/
theorem c7_batch_amended (items : List UploadItem)
    (h : ∀ it ∈ items, ∃ p, it.saveOutcome = Except.ok p) :
    runBatch items = .ok (items.filterMap (fun it => (reportOf it).1),
      (items.map (fun it => (reportOf it).2)).sum) ∧
    api_process_files_model items =
      (if items.isEmpty then .noFiles
        else .done (items.filterMap (fun it => (reportOf it).1))
          ((items.map (fun it => (reportOf it).2)).sum) items.length) ∧
    (∀ it : UploadItem, it.filename.isEmpty = false → (savedPath it).isEmpty = false →
      extKind it.ext ≠ .unsupported → ∀ e, it.procOutcome = .error e →
      reportOf it = (some ⟨it.filename, false, "Error: ".data ++ e⟩, 0)) := by
  refine ⟨runBatch_of_all_saved items h, ?_, ?_⟩
  · rw [api_process_files_model]
    by_cases he : items.isEmpty = true
    · simp [he]
    · simp only [he, if_false, Bool.false_eq_true]
      rw [runBatch_of_all_saved items h]
  · intro it hf hsp hk e hpo
    rw [reportOf]
    simp only [hf, hsp, if_false, Bool.false_eq_true]
    cases hkind : extKind it.ext
    · simp [hpo]
    · simp [hpo]
    · simp [hpo]
    · simp [hpo]
    · exact absurd hkind hk

/-- C7 witness: the amended statement at a concrete three-file batch whose
middle file's processor fails; all saves succeed. -/
theorem c7_batch_amended_witness :
    runBatch [⟨"a.txt".data, ".txt".data, Except.ok "u/a.txt".data, Except.ok "3 chunks".data⟩,
        ⟨"b.png".data, ".png".data, Except.ok "u/b.png".data, Except.error "bad image".data⟩,
        ⟨"c.xyz".data, ".xyz".data, Except.ok "u/c.xyz".data, Except.ok "ignored".data⟩] =
      .ok (([⟨"a.txt".data, ".txt".data, Except.ok "u/a.txt".data, Except.ok "3 chunks".data⟩,
          ⟨"b.png".data, ".png".data, Except.ok "u/b.png".data, Except.error "bad image".data⟩,
          ⟨"c.xyz".data, ".xyz".data, Except.ok "u/c.xyz".data, Except.ok "ignored".data⟩] :
            List UploadItem).filterMap (fun it => (reportOf it).1),
        (([⟨"a.txt".data, ".txt".data, Except.ok "u/a.txt".data, Except.ok "3 chunks".data⟩,
          ⟨"b.png".data, ".png".data, Except.ok "u/b.png".data, Except.error "bad image".data⟩,
          ⟨"c.xyz".data, ".xyz".data, Except.ok "u/c.xyz".data, Except.ok "ignored".data⟩] :
            List UploadItem).map (fun it => (reportOf it).2)).sum) ∧
    api_process_files_model [⟨"a.txt".data, ".txt".data, Except.ok "u/a.txt".data, Except.ok "3 chunks".data⟩,
        ⟨"b.png".data, ".png".data, Except.ok "u/b.png".data, Except.error "bad image".data⟩,
        ⟨"c.xyz".data, ".xyz".data, Except.ok "u/c.xyz".data, Except.ok "ignored".data⟩] =
      (if ([⟨"a.txt".data, ".txt".data, Except.ok "u/a.txt".data, Except.ok "3 chunks".data⟩,
          ⟨"b.png".data, ".png".data, Except.ok "u/b.png".data, Except.error "bad image".data⟩,
          ⟨"c.xyz".data, ".xyz".data, Except.ok "u/c.xyz".data, Except.ok "ignored".data⟩] :
            List UploadItem).isEmpty then .noFiles
        else .done (([⟨"a.txt".data, ".txt".data, Except.ok "u/a.txt".data, Except.ok "3 chunks".data⟩,
            ⟨"b.png".data, ".png".data, Except.ok "u/b.png".data, Except.error "bad image".data⟩,
            ⟨"c.xyz".data, ".xyz".data, Except.ok "u/c.xyz".data, Except.ok "ignored".data⟩] :
              List UploadItem).filterMap (fun it => (reportOf it).1))
          ((([⟨"a.txt".data, ".txt".data, Except.ok "u/a.txt".data, Except.ok "3 chunks".data⟩,
            ⟨"b.png".data, ".png".data, Except.ok "u/b.png".data, Except.error "bad image".data⟩,
            ⟨"c.xyz".data, ".xyz".data, Except.ok "u/c.xyz".data, Except.ok "ignored".data⟩] :
              List UploadItem).map (fun it => (reportOf it).2)).sum)
          ([⟨"a.txt".data, ".txt".data, Except.ok "u/a.txt".data, Except.ok "3 chunks".data⟩,
            ⟨"b.png".data, ".png".data, Except.ok "u/b.png".data, Except.error "bad image".data⟩,
            ⟨"c.xyz".data, ".xyz".data, Except.ok "u/c.xyz".data, Except.ok "ignored".data⟩] :
              List UploadItem).length) ∧
    (∀ it : UploadItem, it.filename.isEmpty = false → (savedPath it).isEmpty = false →
      extKind it.ext ≠ .unsupported → ∀ e, it.procOutcome = .error e →
      reportOf it = (some ⟨it.filename, false, "Error: ".data ++ e⟩, 0)) :=
  c7_batch_amended
    [⟨"a.txt".data, ".txt".data, Except.ok "u/a.txt".data, Except.ok "3 chunks".data⟩,
      ⟨"b.png".data, ".png".data, Except.ok "u/b.png".data, Except.error "bad image".data⟩,
      ⟨"c.xyz".data, ".xyz".data, Except.ok "u/c.xyz".data, Except.ok "ignored".data⟩]
    (by
      intro it hit
      simp only [List.mem_cons, List.not_mem_nil, or_false] at hit
      rcases hit with rfl | rfl | rfl
      · exact ⟨_, rfl⟩
      · exact ⟨_, rfl⟩
      · exact ⟨_, rfl⟩)

/-- C7 counterexample: in a two-file batch whose first file's save step
raises with message `"disk full"`, the exception escapes the per-file
handling: the batch is aborted with no per-file report at all — in
particular the second, healthy file is never processed and no counts are
reported — contradicting the claim that every per-item failure is converted
into a reported per-file result and that a failing file never prevents the
remaining files from being processed. -/
theorem c7_batch_counterexample :
    api_process_files_model
        [⟨"a.txt".data, ".txt".data, Except.error "disk full".data, Except.ok "x".data⟩,
          ⟨"b.txt".data, ".txt".data, Except.ok "u/b.txt".data, Except.ok "1 chunk".data⟩] =
      .aborted [] "disk full".data := by
  rfl

/-- Metadata list built by `process_text_document` (src/app.py):
`[{"source": file_name, "type": "text", "chunk": i} for i in range(len(chunks))]`. -/
def textMetadatas (file_name : List Char) (n : Nat) : List ChunkMeta :=
  (List.range n).map (fun i => ⟨file_name, "text".data, some i⟩)

/-- Metadata list built by `process_audio_file` (src/app.py). -/
def audioMetadatas (file_name : List Char) (n : Nat) : List ChunkMeta :=
  (List.range n).map (fun i => ⟨file_name, "audio".data, some i⟩)

/-- Metadata list built by `api_process_youtube` (src/app.py); the source is
the video URL. -/
def youtubeMetadatas (url : List Char) (n : Nat) : List ChunkMeta :=
  (List.range n).map (fun i => ⟨url, "youtube".data, some i⟩)

/-- Metadata written by `process_image_file` (src/app.py): one chunk, no
chunk index. -/
def imageMetadatas (file_name : List Char) : List ChunkMeta :=
  [⟨file_name, "image".data, none⟩]

/-- Metadata written by `process_video_file` (src/app.py): one chunk, no
chunk index. -/
def videoMetadatas (file_name : List Char) : List ChunkMeta :=
  [⟨file_name, "video".data, none⟩]

/-- C8: for a non-empty source name, every metadata record written by any of
the five ingestion paths carries a non-empty source and a non-empty content
type; the chunk indices attached within one ingestion call are exactly
`0, 1, …, n-1` (so unique per source and monotonically increasing from 0) on
the multi-chunk paths, and absent on the single-chunk media paths. -/
theorem c8_chunk_metadata (src : List Char) (h : src ≠ []) (n : Nat) :
    (∀ m ∈ textMetadatas src n, m.source ≠ [] ∧ m.ctype ≠ []) ∧
    (∀ m ∈ audioMetadatas src n, m.source ≠ [] ∧ m.ctype ≠ []) ∧
    (∀ m ∈ youtubeMetadatas src n, m.source ≠ [] ∧ m.ctype ≠ []) ∧
    (∀ m ∈ imageMetadatas src, m.source ≠ [] ∧ m.ctype ≠ []) ∧
    (∀ m ∈ videoMetadatas src, m.source ≠ [] ∧ m.ctype ≠ []) ∧
    (textMetadatas src n).filterMap ChunkMeta.chunkIdx = List.range n ∧
    (audioMetadatas src n).filterMap ChunkMeta.chunkIdx = List.range n ∧
    (youtubeMetadatas src n).filterMap ChunkMeta.chunkIdx = List.range n ∧
    (imageMetadatas src).filterMap ChunkMeta.chunkIdx = [] ∧
    (videoMetadatas src).filterMap ChunkMeta.chunkIdx = [] ∧
    ((textMetadatas src n).filterMap ChunkMeta.chunkIdx).Pairwise (· < ·) ∧
    (0 < n → ((textMetadatas src n).filterMap ChunkMeta.chunkIdx).getD 0 0 = 0) := by
  have hidx : ∀ ctype : List Char,
      ((List.range n).map (fun i => (⟨src, ctype, some i⟩ : ChunkMeta))).filterMap
        ChunkMeta.chunkIdx = List.range n := by
    intro ctype
    rw [List.filterMap_map]
    simp [Function.comp_def]
  refine ⟨?_, ?_, ?_, ?_, ?_, hidx _, hidx _, hidx _, rfl, rfl, ?_, ?_⟩
  · intro m hm
    rw [textMetadatas] at hm
    obtain ⟨i, _, rfl⟩ := List.mem_map.mp hm
    exact ⟨h, List.cons_ne_nil _ _⟩
  · intro m hm
    rw [audioMetadatas] at hm
    obtain ⟨i, _, rfl⟩ := List.mem_map.mp hm
    exact ⟨h, List.cons_ne_nil _ _⟩
  · intro m hm
    rw [youtubeMetadatas] at hm
    obtain ⟨i, _, rfl⟩ := List.mem_map.mp hm
    exact ⟨h, List.cons_ne_nil _ _⟩
  · intro m hm
    rw [imageMetadatas, List.mem_singleton] at hm
    subst hm
    exact ⟨h, List.cons_ne_nil _ _⟩
  · intro m hm
    rw [videoMetadatas, List.mem_singleton] at hm
    subst hm
    exact ⟨h, List.cons_ne_nil _ _⟩
  · rw [textMetadatas, hidx]
    exact List.pairwise_lt_range n
  · intro hn
    rw [textMetadatas, hidx]
    cases n with
    | zero => omega
    | succ k =>
      rw [List.range_succ_eq_map]
      rfl

/-- C8 witness: the metadata invariant at source `"f.txt"` with 3 chunks. -/
theorem c8_chunk_metadata_witness :
    (∀ m ∈ textMetadatas "f.txt".data 3, m.source ≠ [] ∧ m.ctype ≠ []) ∧
    (∀ m ∈ audioMetadatas "f.txt".data 3, m.source ≠ [] ∧ m.ctype ≠ []) ∧
    (∀ m ∈ youtubeMetadatas "f.txt".data 3, m.source ≠ [] ∧ m.ctype ≠ []) ∧
    (∀ m ∈ imageMetadatas "f.txt".data, m.source ≠ [] ∧ m.ctype ≠ []) ∧
    (∀ m ∈ videoMetadatas "f.txt".data, m.source ≠ [] ∧ m.ctype ≠ []) ∧
    (textMetadatas "f.txt".data 3).filterMap ChunkMeta.chunkIdx = List.range 3 ∧
    (audioMetadatas "f.txt".data 3).filterMap ChunkMeta.chunkIdx = List.range 3 ∧
    (youtubeMetadatas "f.txt".data 3).filterMap ChunkMeta.chunkIdx = List.range 3 ∧
    (imageMetadatas "f.txt".data).filterMap ChunkMeta.chunkIdx = [] ∧
    (videoMetadatas "f.txt".data).filterMap ChunkMeta.chunkIdx = [] ∧
    ((textMetadatas "f.txt".data 3).filterMap ChunkMeta.chunkIdx).Pairwise (· < ·) ∧
    (0 < 3 → ((textMetadatas "f.txt".data 3).filterMap ChunkMeta.chunkIdx).getD 0 0 = 0) :=
  c8_chunk_metadata "f.txt".data (by decide) 3

/-- Python `path.rsplit(".", 1)[0]`: everything before the last dot, or the
whole string when there is none. -/
def rsplitBase (s : List Char) : List Char :=
  if (s.reverse.dropWhile (fun c => !(c == '.'))).isEmpty then s
  else ((s.reverse.dropWhile (fun c => !(c == '.'))).drop 1).reverse

/-- Name of the `chunk_index`-th written segment file in
`MediaProcessor.split_audio_into_chunks`. -/
def chunkFileName (audioPath : List Char) (i : Nat) : List Char :=
  rsplitBase audioPath ++ "_chunk_".data ++ (Nat.repr i).data ++ ".wav".data

/-- Observable environment of one `split_audio_into_chunks` run: library
availability, `int(audio.duration)` of the opened clip, and whether opening
the clip or writing any segment raises. -/
structure SplitEnv where
  moviepyAvailable : Bool
  clipDurationInt : Nat
  anyError : Bool
deriving DecidableEq, Repr

/-- Model of `MediaProcessor.split_audio_into_chunks`
(src/processors/media_processor.py): without the library, or when anything
raises inside the try block, return the original path as the single element;
otherwise write one segment per iteration of
`range(0, int(duration), chunk_duration_seconds)` — that is
`ceil(int(duration) / chunkDuration)` segments. A zero `chunkDuration` makes
`range` raise `ValueError`, caught by the same except clause. -/
def split_audio_into_chunks_model (env : SplitEnv) (audioPath : List Char)
    (chunkDuration : Nat) : List (List Char) :=
  if !env.moviepyAvailable then [audioPath]
  else if env.anyError then [audioPath]
  else if chunkDuration = 0 then [audioPath]
  else (List.range ((env.clipDurationInt + chunkDuration - 1) / chunkDuration)).map
    (chunkFileName audioPath)

/-- C10 counterexample: with the library available and no error, an audio
clip whose duration is below one second (`int(duration) = 0`) makes the
segment loop run zero times, so `split_audio_into_chunks` returns the empty
list — contradicting the claim that it never returns an empty list and that
the caller's segment loop always has at least one segment to attempt. -/
theorem c10_split_counterexample :
    split_audio_into_chunks_model ⟨true, 0, false⟩ "a.mp3".data 60 = [] := by
  rfl

/-- C10 (amended): `split_audio_into_chunks` never raises; when the audio
library is unavailable or any error occurs during splitting it returns the
single-element list holding the original path; on the error-free path with a
positive segment duration it returns exactly
`ceil(int(duration) / chunkDuration)` segment files — a non-empty list
whenever `int(duration) ≥ 1`, but the empty list for a sub-second clip, the
only way an empty list can arise. -/
theorem c10_split_amended (env : SplitEnv) (audioPath : List Char)
    (chunkDuration : Nat) (hc : 0 < chunkDuration) :
    (env.moviepyAvailable = false →
      split_audio_into_chunks_model env audioPath chunkDuration = [audioPath]) ∧
    (env.anyError = true →
      split_audio_into_chunks_model env audioPath chunkDuration = [audioPath]) ∧
    (env.moviepyAvailable = true → env.anyError = false →
      split_audio_into_chunks_model env audioPath chunkDuration =
        (List.range ((env.clipDurationInt + chunkDuration - 1) / chunkDuration)).map
          (chunkFileName audioPath) ∧
      (split_audio_into_chunks_model env audioPath chunkDuration).length =
        (env.clipDurationInt + chunkDuration - 1) / chunkDuration ∧
      (1 ≤ env.clipDurationInt →
        split_audio_into_chunks_model env audioPath chunkDuration ≠ [])) ∧
    ((split_audio_into_chunks_model env audioPath chunkDuration).isEmpty = true →
      env.moviepyAvailable = true ∧ env.anyError = false ∧ env.clipDurationInt = 0) := by
  refine ⟨?_, ?_, ?_, ?_⟩
  · intro hm
    rw [split_audio_into_chunks_model, hm]
    rfl
  · intro he
    rw [split_audio_into_chunks_model, he]
    cases env.moviepyAvailable <;> rfl
  · intro hm he
    have hkey : split_audio_into_chunks_model env audioPath chunkDuration =
        (List.range ((env.clipDurationInt + chunkDuration - 1) / chunkDuration)).map
          (chunkFileName audioPath) := by
      rw [split_audio_into_chunks_model, hm, he]
      simp only [Bool.not_true, Bool.false_eq_true, if_false, Nat.pos_iff_ne_zero.mp hc,
        ite_false]
    refine ⟨hkey, by rw [hkey, List.length_map, List.length_range], ?_⟩
    intro hd hnil
    rw [hkey] at hnil
    have hlen : ((List.range ((env.clipDurationInt + chunkDuration - 1) / chunkDuration)).map
        (chunkFileName audioPath)).length = 0 := by
      rw [hnil]
      rfl
    rw [List.length_map, List.length_range] at hlen
    have : chunkDuration ≤ env.clipDurationInt + chunkDuration - 1 := by omega
    have := Nat.one_le_div_iff hc |>.mpr this
    omega
  · intro hemp
    rw [split_audio_into_chunks_model] at hemp
    cases hm : env.moviepyAvailable with
    | false =>
      rw [hm] at hemp
      simp at hemp
    | true =>
      rw [hm] at hemp
      cases he : env.anyError with
      | true =>
        rw [he] at hemp
        simp at hemp
      | false =>
        rw [he] at hemp
        simp only [Bool.not_true, Bool.false_eq_true, if_false, Nat.pos_iff_ne_zero.mp hc,
          ite_false] at hemp
        rw [List.isEmpty_iff, List.map_eq_nil_iff, List.range_eq_nil] at hemp
        refine ⟨by simp, by simp, ?_⟩
        have := Nat.div_eq_zero_iff hc |>.mp hemp
        omega

/-- C10 witness: the amended statement at a 120-second clip split into
60-second segments, library available and no error. -/
theorem c10_split_amended_witness :
    ((⟨true, 120, false⟩ : SplitEnv).moviepyAvailable = false →
      split_audio_into_chunks_model ⟨true, 120, false⟩ "a.mp3".data 60 = ["a.mp3".data]) ∧
    ((⟨true, 120, false⟩ : SplitEnv).anyError = true →
      split_audio_into_chunks_model ⟨true, 120, false⟩ "a.mp3".data 60 = ["a.mp3".data]) ∧
    ((⟨true, 120, false⟩ : SplitEnv).moviepyAvailable = true →
      (⟨true, 120, false⟩ : SplitEnv).anyError = false →
      split_audio_into_chunks_model ⟨true, 120, false⟩ "a.mp3".data 60 =
        (List.range (((⟨true, 120, false⟩ : SplitEnv).clipDurationInt + 60 - 1) / 60)).map
          (chunkFileName "a.mp3".data) ∧
      (split_audio_into_chunks_model ⟨true, 120, false⟩ "a.mp3".data 60).length =
        ((⟨true, 120, false⟩ : SplitEnv).clipDurationInt + 60 - 1) / 60 ∧
      (1 ≤ (⟨true, 120, false⟩ : SplitEnv).clipDurationInt →
        split_audio_into_chunks_model ⟨true, 120, false⟩ "a.mp3".data 60 ≠ [])) ∧
    ((split_audio_into_chunks_model ⟨true, 120, false⟩ "a.mp3".data 60).isEmpty = true →
      (⟨true, 120, false⟩ : SplitEnv).moviepyAvailable = true ∧
      (⟨true, 120, false⟩ : SplitEnv).anyError = false ∧
      (⟨true, 120, false⟩ : SplitEnv).clipDurationInt = 0) :=
  c10_split_amended ⟨true, 120, false⟩ "a.mp3".data 60 (by decide)

end MMDP
